import Mathlib

/-!
Verification development for the ROI-calculator backend core:
lead scoring (src/utils/lead_scoring.py), validation (src/utils/validation.py)
and sanitization (src/utils/security.py, src/utils/validation.py).

Python values flowing through these functions (JSON-like data) are modelled
by the mutual inductive type PyValue below.  Fallible Python operations
(float(), int(), len(), re.match on arbitrary values, dict key hashing)
are modelled with Option: none models a raised exception.
-/

namespace ROICalc

/-! ## Python value model -/

mutual

/-- A JSON-like Python value: string, number (int/float modelled as Rat),
boolean, None, dict with string keys, or list. -/
inductive PyValue where
  | vStr (s : String)
  | vNum (q : Rat)
  | vBool (b : Bool)
  | vNull
  | vDict (fields : PyFields)
  | vList (items : PyItems)

/-- The fields of a Python dict with string keys, in insertion order. -/
inductive PyFields where
  | nil
  | cons (key : String) (val : PyValue) (rest : PyFields)

/-- The items of a Python list. -/
inductive PyItems where
  | nil
  | cons (val : PyValue) (rest : PyItems)

end

/-- Models Python dict lookup d.get(key) returning None-as-absent:
first binding of the key, if any. -/
def PyFields.get? : PyFields → String → Option PyValue
  | .nil, _ => none
  | .cons k v rest, key => if k = key then some v else rest.get? key

/-- Models Python d.get(key, default). -/
def PyFields.getD (f : PyFields) (key : String) (dflt : PyValue) : PyValue :=
  (f.get? key).getD dflt

def PyFields.isNil : PyFields → Bool
  | .nil => true
  | .cons _ _ _ => false

def PyItems.isNil : PyItems → Bool
  | .nil => true
  | .cons _ _ => false

/-- Models Python truthiness: 0, 0.0, empty string, empty dict/list,
False and None are falsy; everything else is truthy. -/
def PyValue.truthy : PyValue → Bool
  | .vStr s => !(s = "")
  | .vNum q => !(q = 0)
  | .vBool b => b
  | .vNull => false
  | .vDict f => !f.isNil
  | .vList l => !l.isNil

/-! ## Python numeric conversions -/

/-- Drop whitespace characters from both ends of a character list. -/
def trimChars (cs : List Char) : List Char :=
  ((cs.dropWhile Char.isWhitespace).reverse.dropWhile Char.isWhitespace).reverse

/-- Models Python str.strip(): remove leading and trailing whitespace. -/
def pyStrip (s : String) : String := ⟨trimChars s.data⟩

/-- Numeric value of a list of decimal digit characters. -/
def digitsToNat (cs : List Char) : Nat :=
  cs.foldl (fun n c => 10 * n + (c.toNat - 48)) 0

/-- Parse an unsigned decimal literal: digits, digits.digits, digits., or
.digits (at least one digit in total), returned as a numerator-denominator
pair.  Models the decimal core of the literals accepted by Python float(). -/
def parseUnsignedDecimal? (cs : List Char) : Option (Nat × Nat) :=
  let intPart := cs.takeWhile (fun c => !(c = '.'))
  let rest := cs.drop intPart.length
  if intPart.all Char.isDigit then
    match rest with
    | [] => if intPart.isEmpty then none else some (digitsToNat intPart, 1)
    | '.' :: fracPart =>
        if fracPart.all Char.isDigit && !(intPart.isEmpty && fracPart.isEmpty) then
          some (digitsToNat intPart * 10 ^ fracPart.length + digitsToNat fracPart,
                10 ^ fracPart.length)
        else none
    | _ => none
  else none

/-- Models Python float(s) on a string: strip whitespace, optional sign,
then an unsigned decimal literal; none models a raised ValueError. -/
def pyStrToFloat? (s : String) : Option Rat :=
  match trimChars s.data with
  | '+' :: rest => (parseUnsignedDecimal? rest).map (fun p => mkRat (p.1 : Int) p.2)
  | '-' :: rest => (parseUnsignedDecimal? rest).map (fun p => mkRat (-(p.1 : Int)) p.2)
  | cs => (parseUnsignedDecimal? cs).map (fun p => mkRat (p.1 : Int) p.2)

/-- Models Python int(s) on a string: strip whitespace, optional sign,
then digits only (no decimal point); none models a raised ValueError. -/
def pyStrToInt? (s : String) : Option Int :=
  let core : List Char → Option Int := fun cs =>
    if !cs.isEmpty && cs.all Char.isDigit then some ((digitsToNat cs : Int)) else none
  match trimChars s.data with
  | '+' :: rest => core rest
  | '-' :: rest => (core rest).map (fun n => -n)
  | cs => core cs

/-- Truncation toward zero, as performed by Python int() on a float. -/
def pyTrunc (q : Rat) : Int := q.num.tdiv (q.den : Int)

/-- Models Python float(v) on an arbitrary value; none models a raised
ValueError/TypeError (strings that do not parse, None, dicts, lists). -/
def pyFloat : PyValue → Option Rat
  | .vNum q => some q
  | .vBool b => some (if b then 1 else 0)
  | .vStr s => pyStrToFloat? s
  | _ => none

/-- Models Python int(v) on an arbitrary value; floats truncate toward
zero, strings must be integer literals; none models a raised error. -/
def pyInt : PyValue → Option Int
  | .vNum q => some (pyTrunc q)
  | .vBool b => some (if b then 1 else 0)
  | .vStr s => pyStrToInt? s
  | _ => none

/-- Models Python len(v): defined for strings, dicts and lists; none
models the TypeError raised on numbers, booleans and None. -/
def pyLen : PyValue → Option Nat
  | .vStr s => some s.length
  | .vDict f => some (countFields f)
  | .vList l => some (countItems l)
  | _ => none
where
  countFields : PyFields → Nat
    | .nil => 0
    | .cons _ _ rest => 1 + countFields rest
  countItems : PyItems → Nat
    | .nil => 0
    | .cons _ rest => 1 + countItems rest

/-! ## Lead scoring (src/utils/lead_scoring.py) -/

/-- Models a Python score-table lookup table.get(key, 0): a list key or a
dict key is unhashable, so dict.get raises TypeError (modelled as none);
any other non-string value is hashable but matches no string key, so the
default 0 is returned. -/
def tableGet (table : List (String × Int)) : PyValue → Option Int
  | .vStr s => some ((table.lookup s).getD 0)
  | .vList _ => none
  | .vDict _ => none
  | _ => some 0

/-- Company-size score table from calculate_demographic_score. -/
def size_scores : List (String × Int) :=
  [("1-10", 5), ("11-50", 10), ("51-200", 15), ("201-1000", 12), ("1000+", 8)]

/-- Industry score table from calculate_demographic_score. -/
def industry_scores : List (String × Int) :=
  [("E-commerce", 15), ("SaaS", 12), ("Retail", 12), ("Technology", 10),
   ("Marketing", 10), ("Healthcare", 8), ("Finance", 8), ("Education", 6),
   ("Real Estate", 6), ("Manufacturing", 4), ("Consulting", 4), ("Other", 2)]

/-- Business-stage score table from calculate_demographic_score. -/
def stage_scores : List (String × Int) :=
  [("Growth", 10), ("Established", 8), ("Startup", 6), ("Enterprise", 4)]

/-- Demographic-based score (50 points max); none models the TypeError
raised by dict.get on an unhashable category value. -/
def calculate_demographic_score (data : PyFields) : Option Int := do
  let s1 ← tableGet size_scores (data.getD "company_size" (.vStr ""))
  let s2 ← tableGet industry_scores (data.getD "industry" (.vStr ""))
  let s3 ← tableGet stage_scores (data.getD "business_stage" (.vStr ""))
  let s4 : Int := if (data.getD "website" .vNull).truthy then 10 else 0
  pure (s1 + s2 + s3 + s4)

/-- Revenue banding from calculate_behavioral_score (25 points max). -/
def revenuePoints (monthly_revenue : Rat) : Int :=
  if monthly_revenue ≥ 100000 then 25
  else if monthly_revenue ≥ 50000 then 20
  else if monthly_revenue ≥ 25000 then 15
  else if monthly_revenue ≥ 10000 then 10
  else if monthly_revenue ≥ 5000 then 5
  else 0

/-- Order-volume banding from calculate_behavioral_score (15 points max). -/
def orderPoints (monthly_orders : Int) : Int :=
  if monthly_orders ≥ 1000 then 15
  else if monthly_orders ≥ 500 then 12
  else if monthly_orders ≥ 200 then 8
  else if monthly_orders ≥ 50 then 4
  else 0

/-- Average-order-value banding from calculate_behavioral_score (10 points max). -/
def aovPoints (aov : Rat) : Int :=
  if aov ≥ 200 then 10
  else if aov ≥ 100 then 8
  else if aov ≥ 50 then 5
  else if aov ≥ 25 then 2
  else 0

/-- Behavior-based score (50 points max); none models the ValueError or
TypeError raised by the float()/int() conversions. -/
def calculate_behavioral_score (data : PyFields) : Option Int := do
  let monthly_revenue ← pyFloat (data.getD "monthly_revenue" (.vNum 0))
  let monthly_orders ← pyInt (data.getD "monthly_orders" (.vNum 0))
  let aov ← pyFloat (data.getD "average_order_value" (.vNum 0))
  pure (revenuePoints monthly_revenue + orderPoints monthly_orders + aovPoints aov)

/-- Conversion-rate banding from calculate_fit_score: only scored when
positive, with an inverse relation (15 points max). -/
def conversionPoints (conversion_rate : Rat) : Int :=
  if conversion_rate > 0 then
    if conversion_rate < 2 then 15
    else if conversion_rate < 3 then 12
    else if conversion_rate < 5 then 8
    else if conversion_rate < 8 then 4
    else 0
  else 0

/-- Cart-abandonment banding from calculate_fit_score: only scored when
positive, with a direct relation (15 points max). -/
def abandonmentPoints (abandonment_rate : Rat) : Int :=
  if abandonment_rate > 0 then
    if abandonment_rate > 70 then 15
    else if abandonment_rate > 60 then 12
    else if abandonment_rate > 50 then 8
    else if abandonment_rate > 40 then 4
    else 0
  else 0

/-- Manual-hours banding from calculate_fit_score (10 points max). -/
def manualHoursPoints (manual_hours : Int) : Int :=
  if manual_hours ≥ 20 then 10
  else if manual_hours ≥ 10 then 7
  else if manual_hours ≥ 5 then 4
  else if manual_hours ≥ 1 then 1
  else 0

/-- Ad-spend banding from calculate_fit_score (10 points max). -/
def adSpendPoints (ad_spend : Rat) : Int :=
  if ad_spend ≥ 10000 then 10
  else if ad_spend ≥ 5000 then 8
  else if ad_spend ≥ 2000 then 5
  else if ad_spend ≥ 500 then 2
  else 0

/-- Product-fit score (50 points max); none models the ValueError or
TypeError raised by the float()/int() conversions. -/
def calculate_fit_score (data : PyFields) : Option Int := do
  let conversion_rate ← pyFloat (data.getD "conversion_rate" (.vNum 0))
  let abandonment_rate ← pyFloat (data.getD "cart_abandonment_rate" (.vNum 0))
  let manual_hours ← pyInt (data.getD "manual_hours_per_week" (.vNum 0))
  let ad_spend ← pyFloat (data.getD "monthly_ad_spend" (.vNum 0))
  pure (conversionPoints conversion_rate + abandonmentPoints abandonment_rate +
        manualHoursPoints manual_hours + adSpendPoints ad_spend)

/-- Comprehensive lead score, clamped to 0..150; none models any
exception raised by the three sub-scorers. -/
def calculate_lead_score (data : PyFields) : Option Int := do
  let d ← calculate_demographic_score data
  let b ← calculate_behavioral_score data
  let f ← calculate_fit_score data
  pure (max 0 (min 150 (d + b + f)))

/-- Tier assignment by score: Hot at 100+, Warm at 60..99, Cold below 60. -/
def assign_tier (lead_score : Int) : String :=
  if lead_score ≥ 100 then "Hot"
  else if lead_score ≥ 60 then "Warm"
  else "Cold"

/-- Ordinal rank of a tier name: Cold < Warm < Hot. -/
def tierRank (tier : String) : Nat :=
  if tier = "Hot" then 2 else if tier = "Warm" then 1 else 0

/-- All seven numeric conversions performed by the scoring engine succeed
on this input: float() on monthly_revenue, average_order_value,
conversion_rate, cart_abandonment_rate and monthly_ad_spend, and int() on
monthly_orders and manual_hours_per_week, each applied to the field value
with default 0. -/
def numericFieldsParse (data : PyFields) : Bool :=
  (pyFloat (data.getD "monthly_revenue" (.vNum 0))).isSome &&
  (pyInt (data.getD "monthly_orders" (.vNum 0))).isSome &&
  (pyFloat (data.getD "average_order_value" (.vNum 0))).isSome &&
  (pyFloat (data.getD "conversion_rate" (.vNum 0))).isSome &&
  (pyFloat (data.getD "cart_abandonment_rate" (.vNum 0))).isSome &&
  (pyInt (data.getD "manual_hours_per_week" (.vNum 0))).isSome &&
  (pyFloat (data.getD "monthly_ad_spend" (.vNum 0))).isSome

/-- The three category fields looked up in score tables are hashable
Python values, so dict.get accepts them as keys. -/
def hashableCategories (data : PyFields) : Bool :=
  (tableGet size_scores (data.getD "company_size" (.vStr ""))).isSome &&
  (tableGet industry_scores (data.getD "industry" (.vStr ""))).isSome &&
  (tableGet stage_scores (data.getD "business_stage" (.vStr ""))).isSome

/-! ## Sanitization (src/utils/security.py and src/utils/validation.py) -/

/-- The characters removed by the sanitizers: the regex class matching
angle brackets, double quote and single quote. -/
def dangerousChar (c : Char) : Bool :=
  c = '<' || c = '>' || c = Char.ofNat 34 || c = Char.ofNat 39

/-- Remove the dangerous characters from a string, as re.sub with the
empty replacement does. -/
def stripDangerous (s : String) : String := ⟨s.data.filter (fun c => !dangerousChar c)⟩

/-- Models Python string slicing s[:n]. -/
def pyTake (s : String) (n : Nat) : String := ⟨s.data.take n⟩

mutual

/-- Models security.sanitize_input: recursively sanitize dict values and
list items; strip dangerous characters from strings and truncate them to
1000 characters; pass every other value through unchanged. -/
def sanitize_input : PyValue → PyValue
  | .vDict f => .vDict (sanitizeFields f)
  | .vList l => .vList (sanitizeItems l)
  | .vStr s => .vStr (pyTake (stripDangerous s) 1000)
  | v => v

/-- Recursive application of sanitize_input to every value of a dict. -/
def sanitizeFields : PyFields → PyFields
  | .nil => .nil
  | .cons k v rest => .cons k (sanitize_input v) (sanitizeFields rest)

/-- Recursive application of sanitize_input to every item of a list. -/
def sanitizeItems : PyItems → PyItems
  | .nil => .nil
  | .cons v rest => .cons (sanitize_input v) (sanitizeItems rest)

end

/-- The per-field truncation limit applied by sanitize_form_data. -/
def fieldLimit (key : String) : Nat :=
  if key = "first_name" || key = "last_name" then 50
  else if key = "email" then 255
  else if key = "company" || key = "website" then 200
  else if key = "phone" then 20
  else 500

/-- The transformation sanitize_form_data applies to one top-level value:
strings are stripped of dangerous characters, trimmed of surrounding
whitespace and truncated to the per-field limit; every non-string value,
including a nested dict or list, passes through unchanged. -/
def sanitizeFormValue (key : String) : PyValue → PyValue
  | .vStr s => .vStr (pyTake (pyStrip (stripDangerous s)) (fieldLimit key))
  | v => v

/-- Models validation.sanitize_form_data: apply sanitizeFormValue to each
top-level entry of the dict. -/
def sanitize_form_data : PyFields → PyFields
  | .nil => .nil
  | .cons k v rest => .cons k (sanitizeFormValue k v) (sanitize_form_data rest)

/-! ## Regex models (the patterns used in src/utils/validation.py) -/

/-- Character class of the local part of the email pattern. -/
def emailLocalChar (c : Char) : Bool :=
  c.isAlpha || c.isDigit || c = '.' || c = '_' || c = '%' || c = '+' || c = '-'

/-- Character class of the domain part of the email and website patterns. -/
def domainChar (c : Char) : Bool :=
  c.isAlpha || c.isDigit || c = '.' || c = '-'

/-- Matcher for the tail of the email and website patterns: one or more
domain characters, a literal dot, then at least two letters reaching the
end of the string.  Because the final letter run may not contain a dot,
it is exactly the segment after the last dot. -/
def domainTldMatches (cs : List Char) : Bool :=
  let rts := cs.reverse
  let tld := rts.takeWhile (fun c => !(c = '.'))
  match rts.drop tld.length with
  | '.' :: hostRev =>
      decide (tld.length ≥ 2) && tld.all Char.isAlpha &&
      !hostRev.isEmpty && hostRev.all domainChar
  | _ => false

/-- Model of re.match on the anchored email pattern
local at domain dot tld, with the character classes above. -/
def emailMatches (s : String) : Bool :=
  let cs := s.data
  let loc := cs.takeWhile emailLocalChar
  match cs.drop loc.length with
  | '@' :: dom => !loc.isEmpty && domainTldMatches dom
  | _ => false

/-- Character class of the name pattern: letters, whitespace, apostrophe
and hyphen. -/
def nameChar (c : Char) : Bool :=
  c.isAlpha || c.isWhitespace || c = Char.ofNat 39 || c = '-'

/-- Model of re.match on the anchored name pattern: one or more name
characters spanning the whole string. -/
def nameMatches (s : String) : Bool :=
  !s.data.isEmpty && s.data.all nameChar

/-- Model of re.match on the anchored website pattern: an http or https
scheme, a host matching the domain-tld pattern, then an optional slash
followed by any path without a newline. -/
def websiteMatches (s : String) : Bool :=
  let cs := s.data
  let body : Option (List Char) :=
    if cs.take 7 = "http://".data then some (cs.drop 7)
    else if cs.take 8 = "https://".data then some (cs.drop 8)
    else none
  match body with
  | none => false
  | some rest =>
      let host := rest.takeWhile (fun c => !(c = '/'))
      let path := rest.drop host.length
      domainTldMatches host &&
        (path.isEmpty || (path.drop 1).all (fun c => !(c = Char.ofNat 10)))

/-! ## Validation (src/utils/validation.py) -/

/-- A field-keyed error mapping in insertion order, modelling the Python
errors dict. -/
abbrev Errors := List (String × String)

/-- Models the Python dict assignment errors[k] = v: overwrite the value
in place if the key exists, otherwise append the binding. -/
def dictInsert : Errors → String → String → Errors
  | [], k, v => [(k, v)]
  | (k0, v0) :: rest, k, v =>
      if k0 = k then (k, v) :: rest else (k0, v0) :: dictInsert rest k v

/-- Lookup of an error message by field key. -/
def lookupErr : Errors → String → Option String
  | [], _ => none
  | (k0, v) :: rest, k => if k0 = k then some v else lookupErr rest k

/-- One step of Python str.title(): uppercase a letter that follows a
non-letter, lowercase a letter that follows a letter. -/
def pyTitleGo : Bool → List Char → List Char
  | _, [] => []
  | prevAlpha, c :: cs =>
      (if c.isAlpha then (if prevAlpha then c.toLower else c.toUpper) else c) ::
        pyTitleGo c.isAlpha cs

/-- Models field.replace("underscore", "space").title() used to build the
error messages: underscores become spaces, then each word is capitalized. -/
def fieldTitle (field : String) : String :=
  ⟨pyTitleGo false (field.data.map (fun c => if c = '_' then ' ' else c))⟩

/-- Insert a comma every three digits, least significant digit first. -/
def commaChunk : List Char → List Char
  | [] => []
  | [a] => [a]
  | [a, b] => [a, b]
  | [a, b, c] => [a, b, c]
  | a :: b :: c :: d :: rest => a :: b :: c :: ',' :: commaChunk (d :: rest)

/-- Models the Python thousands-separator format of a natural number. -/
def commaFormat (n : Nat) : String :=
  ⟨(commaChunk (Nat.toDigits 10 n).reverse).reverse⟩

/-- One iteration of the required-fields loop: a falsy or absent value is
reported as required; a truthy string that strips to empty is reported as
empty. -/
def requiredCheck (data : PyFields) (field : String) (es : Errors) : Errors :=
  match data.get? field with
  | none => dictInsert es field (fieldTitle field ++ " is required")
  | some v =>
      if !v.truthy then dictInsert es field (fieldTitle field ++ " is required")
      else
        match v with
        | .vStr s =>
            if pyStrip s = "" then dictInsert es field (fieldTitle field ++ " cannot be empty")
            else es
        | _ => es

/-- The email format check; none models the TypeError raised by re.match
on a truthy non-string value. -/
def emailCheck (data : PyFields) (es : Errors) : Option Errors :=
  match data.get? "email" with
  | none => some es
  | some v =>
      if v.truthy then
        match v with
        | .vStr s =>
            some (if emailMatches s then es
                  else dictInsert es "email" "Please enter a valid email address")
        | _ => none
      else some es

/-- One iteration of the name-validation loop; none models the TypeError
raised by len() on a number or by re.match on a non-string. -/
def nameCheck (data : PyFields) (field : String) (es : Errors) : Option Errors :=
  match data.get? field with
  | none => some es
  | some v =>
      if v.truthy then
        match pyLen v with
        | none => none
        | some n =>
            if n < 2 then
              some (dictInsert es field (fieldTitle field ++ " must be at least 2 characters"))
            else if n > 50 then
              some (dictInsert es field (fieldTitle field ++ " must be less than 50 characters"))
            else
              match v with
              | .vStr s =>
                  some (if nameMatches s then es
                        else dictInsert es field (fieldTitle field ++ " contains invalid characters"))
              | _ => none
      else some es

/-- One iteration of the financial-fields loop: the try/except around
float() turns a failed conversion into a field error, so this check never
raises. -/
def financialCheck (data : PyFields) (field : String) (minV maxV : Nat) (es : Errors) : Errors :=
  match data.get? field with
  | none => es
  | some v =>
      if v.truthy then
        match pyFloat v with
        | none => dictInsert es field (fieldTitle field ++ " must be a valid number")
        | some x =>
            if x < (minV : Rat) then
              dictInsert es field (fieldTitle field ++ " must be at least $" ++ commaFormat minV)
            else if x > (maxV : Rat) then
              dictInsert es field (fieldTitle field ++ " cannot exceed $" ++ commaFormat maxV)
            else es
      else es

/-- The optional phone check; none models the TypeError raised by re.sub
on a non-string value. -/
def phoneCheck (data : PyFields) (es : Errors) : Option Errors :=
  match data.get? "phone" with
  | none => some es
  | some v =>
      if v.truthy then
        match v with
        | .vStr s =>
            let digits := s.data.filter Char.isDigit
            some (if digits.length < 10 || digits.length > 15 then
                    dictInsert es "phone" "Please enter a valid phone number"
                  else es)
        | _ => none
      else some es

/-- The optional website check; none models the TypeError raised by
re.match on a non-string value. -/
def websiteCheck (data : PyFields) (es : Errors) : Option Errors :=
  match data.get? "website" with
  | none => some es
  | some v =>
      if v.truthy then
        match v with
        | .vStr s =>
            some (if websiteMatches s then es
                  else dictInsert es "website"
                    "Please enter a valid website URL (include http:// or https://)")
        | _ => none
      else some es

/-- The optional company length check; none models the TypeError raised
by len() on a number. -/
def companyCheck (data : PyFields) (es : Errors) : Option Errors :=
  match data.get? "company" with
  | none => some es
  | some v =>
      if v.truthy then
        match pyLen v with
        | none => none
        | some n =>
            some (if n > 100 then
                    dictInsert es "company" "Company name must be less than 100 characters"
                  else es)
      else some es

/-- Membership of a truthy value in a fixed list of strings: the Python
in-operator on a list compares by equality and never raises, and only a
string can equal a string. -/
def enumCheck (data : PyFields) (field : String) (valid : List String) (msg : String)
    (es : Errors) : Errors :=
  match data.get? field with
  | none => es
  | some v =>
      if v.truthy then
        match v with
        | .vStr s => if valid.contains s then es else dictInsert es field msg
        | _ => dictInsert es field msg
      else es

def valid_industries : List String :=
  ["E-commerce", "SaaS", "Healthcare", "Finance", "Education", "Real Estate",
   "Manufacturing", "Retail", "Technology", "Consulting", "Marketing", "Other"]

def valid_stages : List String := ["Startup", "Growth", "Established", "Enterprise"]

def valid_sizes : List String := ["1-10", "11-50", "51-200", "201-1000", "1000+"]

/-- One iteration of the percentage-fields loop: the try/except around
float() turns a failed conversion into a field error. -/
def percentageCheck (data : PyFields) (field : String) (es : Errors) : Errors :=
  match data.get? field with
  | none => es
  | some v =>
      if v.truthy then
        match pyFloat v with
        | none => dictInsert es field (fieldTitle field ++ " must be a valid percentage")
        | some x =>
            if x < 0 ∨ x > 100 then
              dictInsert es field (fieldTitle field ++ " must be between 0 and 100")
            else es
      else es

/-- The validation result record: a validity flag and the field-keyed
error mapping. -/
structure ValidationResult where
  valid : Bool
  errors : Errors
deriving DecidableEq, Repr

/-- Models validate_roi_submission; none models an uncaught TypeError
raised inside the function by len(), re.match or re.sub on an
unexpectedly-typed field value. -/
def validate_roi_submission (data : PyFields) : Option ValidationResult := do
  let es : Errors := []
  let es := requiredCheck data "first_name" es
  let es := requiredCheck data "last_name" es
  let es := requiredCheck data "email" es
  let es := requiredCheck data "monthly_revenue" es
  let es := requiredCheck data "average_order_value" es
  let es := requiredCheck data "monthly_orders" es
  let es ← emailCheck data es
  let es ← nameCheck data "first_name" es
  let es ← nameCheck data "last_name" es
  let es := financialCheck data "monthly_revenue" 1000 10000000 es
  let es := financialCheck data "average_order_value" 1 100000 es
  let es := financialCheck data "monthly_orders" 1 1000000 es
  let es ← phoneCheck data es
  let es ← websiteCheck data es
  let es ← companyCheck data es
  let es := enumCheck data "industry" valid_industries "Please select a valid industry" es
  let es := enumCheck data "business_stage" valid_stages "Please select a valid business stage" es
  let es := enumCheck data "company_size" valid_sizes "Please select a valid company size" es
  let es := percentageCheck data "conversion_rate" es
  let es := percentageCheck data "cart_abandonment_rate" es
  pure { valid := es.isEmpty, errors := es }

/-- Models validate_calculation_data, which only validates
monthly_revenue and never raises. -/
def validate_calculation_data (data : PyFields) : ValidationResult :=
  let errors : Errors :=
    match data.get? "monthly_revenue" with
    | none => dictInsert [] "monthly_revenue" "Monthly revenue is required for calculations"
    | some v =>
        if !v.truthy then
          dictInsert [] "monthly_revenue" "Monthly revenue is required for calculations"
        else
          match pyFloat v with
          | none => dictInsert [] "monthly_revenue" "Monthly revenue must be a valid number"
          | some x =>
              if x ≤ 0 then
                dictInsert [] "monthly_revenue" "Monthly revenue must be greater than 0"
              else if x > 10000000 then
                dictInsert [] "monthly_revenue" "Monthly revenue seems unusually high"
              else []
  { valid := errors.isEmpty, errors := errors }

/-! ## Structural predicates used to state the sanitizer properties -/

/-- The list of keys of a dict, in order. -/
def PyFields.keys : PyFields → List String
  | .nil => []
  | .cons k _ rest => k :: rest.keys

mutual

/-- Every string leaf is free of dangerous characters and at most 1000
characters long. -/
def cleanValue : PyValue → Bool
  | .vStr s => s.data.all (fun c => !dangerousChar c) && decide (s.length ≤ 1000)
  | .vDict f => cleanFields f
  | .vList l => cleanItems l
  | _ => true

def cleanFields : PyFields → Bool
  | .nil => true
  | .cons _ v rest => cleanValue v && cleanFields rest

def cleanItems : PyItems → Bool
  | .nil => true
  | .cons v rest => cleanValue v && cleanItems rest

end

mutual

/-- Two values have the same shape: identical nesting structure and keys,
string leaves aligned with string leaves, and identical non-string
scalars. -/
def sameShape : PyValue → PyValue → Bool
  | .vStr _, .vStr _ => true
  | .vNum a, .vNum b => a = b
  | .vBool a, .vBool b => a = b
  | .vNull, .vNull => true
  | .vDict a, .vDict b => sameShapeFields a b
  | .vList a, .vList b => sameShapeItems a b
  | _, _ => false

def sameShapeFields : PyFields → PyFields → Bool
  | .nil, .nil => true
  | .cons k v r, .cons k2 v2 r2 => k = k2 && sameShape v v2 && sameShapeFields r r2
  | _, _ => false

def sameShapeItems : PyItems → PyItems → Bool
  | .nil, .nil => true
  | .cons v r, .cons v2 r2 => sameShape v v2 && sameShapeItems r r2
  | _, _ => false

end

/-! ## Concrete inputs used in the theorems -/

/-- The fully-loaded scenario input stated in the spec. -/
def scenarioFull : PyFields :=
  .cons "company_size" (.vStr "51-200") (.cons "industry" (.vStr "E-commerce")
  (.cons "business_stage" (.vStr "Growth") (.cons "website" (.vStr "http://x.com")
  (.cons "monthly_revenue" (.vNum 150000) (.cons "monthly_orders" (.vNum 1200)
  (.cons "average_order_value" (.vNum 250) (.cons "conversion_rate" (.vNum (mkRat 3 2))
  (.cons "cart_abandonment_rate" (.vNum 75) (.cons "manual_hours_per_week" (.vNum 25)
  (.cons "monthly_ad_spend" (.vNum 12000) .nil))))))))))

/-- The minimal scenario input stated in the spec: all optional fields
absent. -/
def scenarioMinimal : PyFields :=
  .cons "monthly_revenue" (.vNum 3000) (.cons "monthly_orders" (.vNum 10)
  (.cons "average_order_value" (.vNum 10) .nil))

/-- A submission with all required fields present and valid and a given
monthly revenue. -/
def submissionWithRevenue (revenue : PyValue) : PyFields :=
  .cons "first_name" (.vStr "Jo") (.cons "last_name" (.vStr "Doe")
  (.cons "email" (.vStr "jo@x.com") (.cons "monthly_revenue" revenue
  (.cons "average_order_value" (.vNum 50) (.cons "monthly_orders" (.vNum 100) .nil)))))

/-- A submission that passes validation although the never-validated
field manual_hours_per_week holds a non-numeric string. -/
def unscorableSubmission : PyFields :=
  .cons "manual_hours_per_week" (.vStr "abc") (submissionWithRevenue (.vNum 5000))

/-- A submission whose required and optional fields carry falsy values. -/
def falsySubmission : PyFields :=
  .cons "monthly_revenue" (.vNum 0) (.cons "first_name" (.vStr "")
  (.cons "conversion_rate" (.vNum 0) .nil))

/-! ## Helper characterizations -/

/-- Case-by-case characterization of validate_calculation_data. -/
theorem validate_calculation_data_eq (data : PyFields) :
    validate_calculation_data data =
      match data.get? "monthly_revenue" with
      | none => ⟨false, [("monthly_revenue", "Monthly revenue is required for calculations")]⟩
      | some v =>
          if v.truthy then
            match pyFloat v with
            | none => ⟨false, [("monthly_revenue", "Monthly revenue must be a valid number")]⟩
            | some x =>
                if x ≤ 0 then
                  ⟨false, [("monthly_revenue", "Monthly revenue must be greater than 0")]⟩
                else if x > 10000000 then
                  ⟨false, [("monthly_revenue", "Monthly revenue seems unusually high")]⟩
                else ⟨true, []⟩
          else ⟨false, [("monthly_revenue", "Monthly revenue is required for calculations")]⟩ := by
  unfold validate_calculation_data
  cases hget : data.get? "monthly_revenue" with
  | none => rfl
  | some v =>
      by_cases ht : v.truthy
      · cases hf : pyFloat v with
        | none => simp [ht, hf, dictInsert]
        | some x =>
            by_cases hx : x ≤ 0
            · simp [ht, hf, hx, dictInsert]
            · by_cases hX : x > 10000000
              · simp [ht, hf, hx, hX, dictInsert]
              · simp [ht, hf, hx, hX, dictInsert]
      · simp [ht, dictInsert]

/-! ## Claim theorems -/

/-- Claim C2: assign_tier is total and monotone on integer scores: Hot
exactly at scores of 100 and above, Warm exactly at 60 to 99, Cold exactly
below 60, so exactly one tier applies to every score, and a larger score
never yields a lower tier in the order Cold, Warm, Hot. -/
theorem C2_assign_tier_partition_monotone (s : Int) :
    (assign_tier s = "Hot" ↔ 100 ≤ s) ∧
    (assign_tier s = "Warm" ↔ 60 ≤ s ∧ s < 100) ∧
    (assign_tier s = "Cold" ↔ s < 60) ∧
    (∀ t : Int, s ≤ t → tierRank (assign_tier s) ≤ tierRank (assign_tier t)) := by
  refine ⟨?_, ?_, ?_, ?_⟩
  · unfold assign_tier; split_ifs <;> simp_all <;> omega
  · unfold assign_tier; split_ifs <;> simp_all <;> omega
  · unfold assign_tier; split_ifs <;> simp_all <;> omega
  · intro t hst
    have hHot : tierRank "Hot" = 2 := rfl
    have hWarm : tierRank "Warm" = 1 := rfl
    have hCold : tierRank "Cold" = 0 := rfl
    unfold assign_tier
    split_ifs <;> simp only [hHot, hWarm, hCold] <;> omega

/-- Witness for C2 at the Warm-Hot boundary. -/
theorem C2_witness : tierRank (assign_tier 99) ≤ tierRank (assign_tier 100) :=
  (C2_assign_tier_partition_monotone 99).2.2.2 100 (by decide)

/-- Claim C8: on the two concrete scenario inputs stated in the spec, the
sub-scores, the total score and the tier match the reference exactly. -/
theorem C8_reference_scenarios :
    calculate_demographic_score scenarioFull = some 50 ∧
    calculate_behavioral_score scenarioFull = some 50 ∧
    calculate_fit_score scenarioFull = some 50 ∧
    calculate_lead_score scenarioFull = some 150 ∧
    (calculate_lead_score scenarioFull).map assign_tier = some "Hot" ∧
    calculate_demographic_score scenarioMinimal = some 0 ∧
    calculate_behavioral_score scenarioMinimal = some 0 ∧
    calculate_fit_score scenarioMinimal = some 0 ∧
    calculate_lead_score scenarioMinimal = some 0 ∧
    (calculate_lead_score scenarioMinimal).map assign_tier = some "Cold" := by
  decide

/-- Claim C9: validate_calculation_data rejects exactly the absent or
falsy, unparseable, nonpositive, or above-ceiling monthly_revenue values,
always with a single monthly_revenue error, using the unusually-high
message above 10000000, and accepts every numeric value in (0, 10000000]
with an empty error mapping. -/
theorem C9_validate_calculation_data_spec (data : PyFields) :
    ((validate_calculation_data data).valid = false →
      ∃ m, (validate_calculation_data data).errors = [("monthly_revenue", m)]) ∧
    ((data.get? "monthly_revenue" = none ∨
        (∃ v, data.get? "monthly_revenue" = some v ∧ v.truthy = false)) →
      validate_calculation_data data =
        ⟨false, [("monthly_revenue", "Monthly revenue is required for calculations")]⟩) ∧
    (∀ v, data.get? "monthly_revenue" = some v → v.truthy = true → pyFloat v = none →
      validate_calculation_data data =
        ⟨false, [("monthly_revenue", "Monthly revenue must be a valid number")]⟩) ∧
    (∀ v x, data.get? "monthly_revenue" = some v → v.truthy = true → pyFloat v = some x →
      ((validate_calculation_data data).valid = false ↔ (x ≤ 0 ∨ 10000000 < x)) ∧
      (x ≤ 0 → validate_calculation_data data =
        ⟨false, [("monthly_revenue", "Monthly revenue must be greater than 0")]⟩) ∧
      (10000000 < x → validate_calculation_data data =
        ⟨false, [("monthly_revenue", "Monthly revenue seems unusually high")]⟩) ∧
      (0 < x → x ≤ 10000000 → validate_calculation_data data = ⟨true, []⟩)) := by
  rw [validate_calculation_data_eq]
  refine ⟨?_, ?_, ?_, ?_⟩
  · cases hget : data.get? "monthly_revenue" with
    | none => intro _; exact ⟨_, rfl⟩
    | some v =>
        by_cases ht : v.truthy <;> simp only [ht]
        · cases hf : pyFloat v with
          | none => intro _; exact ⟨_, rfl⟩
          | some x =>
              by_cases hx : x ≤ 0
              · simp [hx]
              · by_cases hX : x > 10000000 <;> simp [hx, hX]
        · intro _; exact ⟨_, rfl⟩
  · rintro (hget | ⟨v, hget, ht⟩)
    · simp [hget]
    · simp [hget, ht]
  · intro v hget ht hf; simp [hget, ht, hf]
  · intro v x hget ht hf
    simp only [hget, ht, hf, if_true]
    rcases le_or_lt x 0 with hx | hx
    · rw [if_pos hx]
      exact ⟨by simp [hx], fun _ => rfl, fun hX => ((by linarith : False)).elim,
        fun h0 _ => ((by linarith : False)).elim⟩
    · rw [if_neg (not_le.mpr hx)]
      rcases lt_or_le 10000000 x with hX | hX
      · rw [if_pos hX]
        exact ⟨by simp [hX], fun h0 => ((by linarith : False)).elim, fun _ => rfl,
          fun _ hle => ((by linarith : False)).elim⟩
      · rw [if_neg (not_lt.mpr hX)]
        refine ⟨⟨fun h => absurd h (by decide), fun h => ?_⟩,
          fun h0 => ((by linarith : False)).elim,
          fun hXX => ((by linarith : False)).elim, fun _ _ => rfl⟩
        rcases h with h | h <;> exact ((by linarith : False)).elim

/-- Witness for C9 at a concrete accepted revenue. -/
theorem C9_witness :
    validate_calculation_data (.cons "monthly_revenue" (.vNum 5000) .nil) = ⟨true, []⟩ :=
  ((C9_validate_calculation_data_spec (.cons "monthly_revenue" (.vNum 5000) .nil)).2.2.2
    (.vNum 5000) 5000 rfl rfl rfl).2.2.2 (by norm_num) (by norm_num)

/-- Claim C4: whenever either validator produces a result, the valid flag
is true exactly when the error mapping is empty. -/
theorem C4_valid_iff_errors_empty :
    (∀ data r, validate_roi_submission data = some r → (r.valid = true ↔ r.errors = [])) ∧
    (∀ data, ((validate_calculation_data data).valid = true ↔
      (validate_calculation_data data).errors = [])) := by
  constructor
  · intro data r h
    unfold validate_roi_submission at h
    simp only [bind, Option.bind_eq_some, Option.pure_def, Option.some.injEq] at h
    obtain ⟨e1, h1, e2, h2, e3, h3, e4, h4, e5, h5, e6, h6, hr⟩ := h
    subst hr
    simp [List.isEmpty_iff]
  · intro data
    rw [validate_calculation_data_eq]
    cases data.get? "monthly_revenue" with
    | none => simp
    | some v =>
        by_cases ht : v.truthy <;> simp only [ht]
        · cases pyFloat v with
          | none => simp
          | some x =>
              by_cases hx : x ≤ 0
              · simp [hx]
              · by_cases hX : x > 10000000 <;> simp [hx, hX]
        · simp

/-- Witness for C4 at a concrete validated submission. -/
theorem C4_witness :
    ((ValidationResult.mk true []).valid = true ↔ (ValidationResult.mk true []).errors = []) :=
  (C4_valid_iff_errors_empty).1 (submissionWithRevenue (.vNum 5000)) ⟨true, []⟩ (by decide)

/-- Every value stored in a score table sits between the given bounds, so
the defaulted lookup does too. -/
theorem lookup_getD_zero_bounds {lo hi : Int} (hlo : lo ≤ 0) (hhi : 0 ≤ hi) :
    ∀ (tbl : List (String × Int)), (∀ p ∈ tbl, lo ≤ p.2 ∧ p.2 ≤ hi) → ∀ s : String,
      lo ≤ ((tbl.lookup s).getD 0) ∧ ((tbl.lookup s).getD 0) ≤ hi := by
  intro tbl
  induction tbl with
  | nil => intro _ s; exact ⟨hlo, hhi⟩
  | cons p rest ih =>
      intro h s
      obtain ⟨k, m⟩ := p
      by_cases hk : (s == k)
      · simp only [List.lookup, hk, Option.getD_some]
        exact h (k, m) (List.mem_cons_self _ _)
      · rw [Bool.not_eq_true] at hk
        simp only [List.lookup, hk]
        exact ih (fun q hq => h q (List.mem_cons_of_mem _ hq)) s

/-- A successful score-table lookup stays between the table bounds. -/
theorem tableGet_bounds {tbl : List (String × Int)} {lo hi : Int} {v : PyValue} {n : Int}
    (hlo : lo ≤ 0) (hhi : 0 ≤ hi) (h : ∀ p ∈ tbl, lo ≤ p.2 ∧ p.2 ≤ hi)
    (hg : tableGet tbl v = some n) : lo ≤ n ∧ n ≤ hi := by
  cases v with
  | vStr s =>
      simp only [tableGet, Option.some.injEq] at hg
      subst hg; exact lookup_getD_zero_bounds hlo hhi tbl h s
  | vNum q => simp only [tableGet, Option.some.injEq] at hg; subst hg; exact ⟨hlo, hhi⟩
  | vBool b => simp only [tableGet, Option.some.injEq] at hg; subst hg; exact ⟨hlo, hhi⟩
  | vNull => simp only [tableGet, Option.some.injEq] at hg; subst hg; exact ⟨hlo, hhi⟩
  | vDict f => simp [tableGet] at hg
  | vList l => simp [tableGet] at hg

/-- The demographic score is bounded by 0 and 50 whenever it is produced. -/
theorem demographic_score_bounds {data : PyFields} {d : Int}
    (h : calculate_demographic_score data = some d) : 0 ≤ d ∧ d ≤ 50 := by
  unfold calculate_demographic_score at h
  simp only [bind, Option.bind_eq_some, Option.pure_def, Option.some.injEq] at h
  obtain ⟨s1, h1, s2, h2, s3, h3, hd⟩ := h
  have b1 := tableGet_bounds (show (0 : Int) ≤ 0 by norm_num) (show (0 : Int) ≤ 15 by norm_num)
    (by decide) h1
  have b2 := tableGet_bounds (show (0 : Int) ≤ 0 by norm_num) (show (0 : Int) ≤ 15 by norm_num)
    (by decide) h2
  have b3 := tableGet_bounds (show (0 : Int) ≤ 0 by norm_num) (show (0 : Int) ≤ 10 by norm_num)
    (by decide) h3
  subst hd
  split <;> omega

theorem revenuePoints_bounds (q : Rat) : 0 ≤ revenuePoints q ∧ revenuePoints q ≤ 25 := by
  unfold revenuePoints; split_ifs <;> norm_num

theorem orderPoints_bounds (n : Int) : 0 ≤ orderPoints n ∧ orderPoints n ≤ 15 := by
  unfold orderPoints; split_ifs <;> norm_num

theorem aovPoints_bounds (q : Rat) : 0 ≤ aovPoints q ∧ aovPoints q ≤ 10 := by
  unfold aovPoints; split_ifs <;> norm_num

theorem conversionPoints_bounds (q : Rat) : 0 ≤ conversionPoints q ∧ conversionPoints q ≤ 15 := by
  unfold conversionPoints; split_ifs <;> norm_num

theorem abandonmentPoints_bounds (q : Rat) :
    0 ≤ abandonmentPoints q ∧ abandonmentPoints q ≤ 15 := by
  unfold abandonmentPoints; split_ifs <;> norm_num

theorem manualHoursPoints_bounds (n : Int) :
    0 ≤ manualHoursPoints n ∧ manualHoursPoints n ≤ 10 := by
  unfold manualHoursPoints; split_ifs <;> norm_num

theorem adSpendPoints_bounds (q : Rat) : 0 ≤ adSpendPoints q ∧ adSpendPoints q ≤ 10 := by
  unfold adSpendPoints; split_ifs <;> norm_num

/-- The behavioral score is bounded by 0 and 50 whenever it is produced. -/
theorem behavioral_score_bounds {data : PyFields} {b : Int}
    (h : calculate_behavioral_score data = some b) : 0 ≤ b ∧ b ≤ 50 := by
  unfold calculate_behavioral_score at h
  simp only [bind, Option.bind_eq_some, Option.pure_def, Option.some.injEq] at h
  obtain ⟨mr, h1, mo, h2, av, h3, hb⟩ := h
  have b1 := revenuePoints_bounds mr
  have b2 := orderPoints_bounds mo
  have b3 := aovPoints_bounds av
  omega

/-- The fit score is bounded by 0 and 50 whenever it is produced. -/
theorem fit_score_bounds {data : PyFields} {f : Int}
    (h : calculate_fit_score data = some f) : 0 ≤ f ∧ f ≤ 50 := by
  unfold calculate_fit_score at h
  simp only [bind, Option.bind_eq_some, Option.pure_def, Option.some.injEq] at h
  obtain ⟨cr, h1, ar, h2, mh, h3, ad, h4, hf⟩ := h
  have b1 := conversionPoints_bounds cr
  have b2 := abandonmentPoints_bounds ar
  have b3 := manualHoursPoints_bounds mh
  have b4 := adSpendPoints_bounds ad
  omega

/-- When all numeric conversions succeed and the category fields are
hashable, the three sub-scores and the clamped total are produced. -/
theorem score_components_exist {data : PyFields}
    (hparse : numericFieldsParse data = true) (hhash : hashableCategories data = true) :
    ∃ d b f, calculate_demographic_score data = some d ∧
      calculate_behavioral_score data = some b ∧ calculate_fit_score data = some f ∧
      calculate_lead_score data = some (max 0 (min 150 (d + b + f))) := by
  simp only [hashableCategories, Bool.and_eq_true, Option.isSome_iff_exists] at hhash
  obtain ⟨⟨⟨t1, g1⟩, ⟨t2, g2⟩⟩, ⟨t3, g3⟩⟩ := hhash
  simp only [numericFieldsParse, Bool.and_eq_true, Option.isSome_iff_exists] at hparse
  obtain ⟨⟨⟨⟨⟨⟨⟨q1, p1⟩, ⟨i1, p2⟩⟩, ⟨q2, p3⟩⟩, ⟨q3, p4⟩⟩, ⟨q4, p5⟩⟩, ⟨i2, p6⟩⟩, ⟨q5, p7⟩⟩ :=
    hparse
  have hd : calculate_demographic_score data =
      some (t1 + t2 + t3 + (if (data.getD "website" .vNull).truthy then 10 else 0)) := by
    simp [calculate_demographic_score, bind, g1, g2, g3]
  have hb : calculate_behavioral_score data =
      some (revenuePoints q1 + orderPoints i1 + aovPoints q2) := by
    simp [calculate_behavioral_score, bind, p1, p2, p3]
  have hf : calculate_fit_score data =
      some (conversionPoints q3 + abandonmentPoints q4 +
        manualHoursPoints i2 + adSpendPoints q5) := by
    simp [calculate_fit_score, bind, p4, p5, p6, p7]
  exact ⟨_, _, _, hd, hb, hf, by simp [calculate_lead_score, bind, hd, hb, hf]⟩

/-- Counterexample to claim C1 as stated: an input whose numeric fields
all parse (they are absent, so each conversion sees the default 0), yet
calculate_lead_score does not return an integer, because the list value
under company_size makes the Python dict.get lookup raise TypeError for
an unhashable key. -/
theorem C1_counterexample :
    numericFieldsParse (.cons "company_size" (.vList .nil) .nil) = true ∧
    calculate_lead_score (.cons "company_size" (.vList .nil) .nil) = none := by
  decide

/-- Claim C1 (amended): for every input whose numeric fields parse under
the conversions the scoring engine applies and whose category fields are
hashable values, the lead score is the clamp of the three sub-score sum to
0..150, the result lies in 0..150, and each sub-score lies in 0..50. -/
theorem C1_lead_score_clamped_bounds (data : PyFields)
    (hparse : numericFieldsParse data = true) (hhash : hashableCategories data = true) :
    ∃ d b f, calculate_demographic_score data = some d ∧
      calculate_behavioral_score data = some b ∧
      calculate_fit_score data = some f ∧
      calculate_lead_score data = some (max 0 (min 150 (d + b + f))) ∧
      0 ≤ d ∧ d ≤ 50 ∧ 0 ≤ b ∧ b ≤ 50 ∧ 0 ≤ f ∧ f ≤ 50 ∧
      0 ≤ max 0 (min 150 (d + b + f)) ∧ max 0 (min 150 (d + b + f)) ≤ 150 := by
  obtain ⟨d, b, f, hd, hb, hf, hs⟩ := score_components_exist hparse hhash
  obtain ⟨hd0, hd1⟩ := demographic_score_bounds hd
  obtain ⟨hb0, hb1⟩ := behavioral_score_bounds hb
  obtain ⟨hf0, hf1⟩ := fit_score_bounds hf
  exact ⟨d, b, f, hd, hb, hf, hs, hd0, hd1, hb0, hb1, hf0, hf1, by omega, by omega⟩

/-- Witness for C1 at the fully-loaded scenario input. -/
theorem C1_witness :
    ∃ d b f, calculate_demographic_score scenarioFull = some d ∧
      calculate_behavioral_score scenarioFull = some b ∧
      calculate_fit_score scenarioFull = some f ∧
      calculate_lead_score scenarioFull = some (max 0 (min 150 (d + b + f))) ∧
      0 ≤ d ∧ d ≤ 50 ∧ 0 ≤ b ∧ b ≤ 50 ∧ 0 ≤ f ∧ f ≤ 50 ∧
      0 ≤ max 0 (min 150 (d + b + f)) ∧ max 0 (min 150 (d + b + f)) ≤ 150 :=
  C1_lead_score_clamped_bounds scenarioFull (by decide) (by decide)

/-- Counterexample to claim C3 as stated: this input passes
validate_roi_submission with no errors, yet calculate_lead_score does not
complete, because the never-validated manual_hours_per_week value is a
string that the int() conversion in the fit scorer rejects. -/
theorem C3_counterexample :
    validate_roi_submission unscorableSubmission = some ⟨true, []⟩ ∧
    calculate_lead_score unscorableSubmission = none := by
  decide

/-- Claim C3 (amended): scoring and tier assignment complete on every
validator-clean input on which the numeric conversions performed by the
scoring engine succeed and the category fields are hashable; validation
alone does not guarantee those extra conditions. -/
theorem C3_scoring_completes_on_clean_parsable (data : PyFields) (r : ValidationResult)
    (hval : validate_roi_submission data = some r) (hvalid : r.valid = true)
    (hparse : numericFieldsParse data = true) (hhash : hashableCategories data = true) :
    ∃ s : Int, calculate_lead_score data = some s ∧
      (assign_tier s = "Hot" ∨ assign_tier s = "Warm" ∨ assign_tier s = "Cold") := by
  obtain ⟨d, b, f, _, _, _, hs⟩ := score_components_exist hparse hhash
  refine ⟨_, hs, ?_⟩
  unfold assign_tier
  split_ifs <;> simp

/-- Witness for C3 at a concrete valid and scorable submission. -/
theorem C3_witness :
    ∃ s : Int, calculate_lead_score (submissionWithRevenue (.vNum 5000)) = some s ∧
      (assign_tier s = "Hot" ∨ assign_tier s = "Warm" ∨ assign_tier s = "Cold") :=
  C3_scoring_completes_on_clean_parsable (submissionWithRevenue (.vNum 5000)) ⟨true, []⟩
    (by decide) rfl (by decide) (by decide)

/-- A character of the recursively sanitized string survives both the
dangerous-character filter and the truncation. -/
theorem sanitizeString_clean (s : String) :
    (pyTake (stripDangerous s) 1000).data.all (fun c => !dangerousChar c) = true ∧
    (pyTake (stripDangerous s) 1000).length ≤ 1000 := by
  constructor
  · rw [List.all_eq_true]
    intro c hc
    have hc2 : c ∈ (s.data.filter fun c => !dangerousChar c).take 1000 := hc
    exact (List.mem_filter.mp (List.mem_of_mem_take hc2)).2
  · show ((s.data.filter fun c => !dangerousChar c).take 1000).length ≤ 1000
    rw [List.length_take]
    exact min_le_left _ _

/-- Stripping then truncating is idempotent on strings. -/
theorem sanitizeString_idem (s : String) :
    pyTake (stripDangerous (pyTake (stripDangerous s) 1000)) 1000 =
      pyTake (stripDangerous s) 1000 := by
  show String.mk ((((s.data.filter fun c => !dangerousChar c).take 1000).filter
      fun c => !dangerousChar c).take 1000) =
    String.mk ((s.data.filter fun c => !dangerousChar c).take 1000)
  have hfix : ((s.data.filter fun c => !dangerousChar c).take 1000).filter
      (fun c => !dangerousChar c) = (s.data.filter fun c => !dangerousChar c).take 1000 :=
    List.filter_eq_self.mpr
      (fun a ha => (List.mem_filter.mp (List.mem_of_mem_take ha)).2)
  rw [hfix, List.take_take, Nat.min_self]

mutual

/-- Every string leaf of a recursively sanitized value is clean. -/
theorem sanitize_input_clean : ∀ v : PyValue, cleanValue (sanitize_input v) = true
  | .vStr s => by
      simp only [sanitize_input, cleanValue, Bool.and_eq_true, decide_eq_true_eq]
      exact ⟨(sanitizeString_clean s).1, (sanitizeString_clean s).2⟩
  | .vNum _ => rfl
  | .vBool _ => rfl
  | .vNull => rfl
  | .vDict f => sanitizeFields_clean f
  | .vList l => sanitizeItems_clean l

theorem sanitizeFields_clean : ∀ f : PyFields, cleanFields (sanitizeFields f) = true
  | .nil => rfl
  | .cons _ v rest => by
      simp only [sanitizeFields, cleanFields, Bool.and_eq_true]
      exact ⟨sanitize_input_clean v, sanitizeFields_clean rest⟩

theorem sanitizeItems_clean : ∀ l : PyItems, cleanItems (sanitizeItems l) = true
  | .nil => rfl
  | .cons v rest => by
      simp only [sanitizeItems, cleanItems, Bool.and_eq_true]
      exact ⟨sanitize_input_clean v, sanitizeItems_clean rest⟩

end

mutual

/-- Recursive sanitization preserves the shape of the value and leaves
non-string scalars unchanged. -/
theorem sanitize_input_shape : ∀ v : PyValue, sameShape v (sanitize_input v) = true
  | .vStr _ => rfl
  | .vNum q => by simp [sanitize_input, sameShape]
  | .vBool b => by simp [sanitize_input, sameShape]
  | .vNull => rfl
  | .vDict f => sanitizeFields_shape f
  | .vList l => sanitizeItems_shape l

theorem sanitizeFields_shape : ∀ f : PyFields, sameShapeFields f (sanitizeFields f) = true
  | .nil => rfl
  | .cons k v rest => by
      simp only [sanitizeFields, sameShapeFields, Bool.and_eq_true, decide_eq_true_eq]
      refine ⟨⟨by simp, sanitize_input_shape v⟩, sanitizeFields_shape rest⟩

theorem sanitizeItems_shape : ∀ l : PyItems, sameShapeItems l (sanitizeItems l) = true
  | .nil => rfl
  | .cons v rest => by
      simp only [sanitizeItems, sameShapeItems, Bool.and_eq_true]
      exact ⟨sanitize_input_shape v, sanitizeItems_shape rest⟩

end

mutual

/-- Recursive sanitization is idempotent. -/
theorem sanitize_input_idem : ∀ v : PyValue, sanitize_input (sanitize_input v) = sanitize_input v
  | .vStr s => congrArg PyValue.vStr (sanitizeString_idem s)
  | .vNum _ => rfl
  | .vBool _ => rfl
  | .vNull => rfl
  | .vDict f => congrArg PyValue.vDict (sanitizeFields_idem f)
  | .vList l => congrArg PyValue.vList (sanitizeItems_idem l)

theorem sanitizeFields_idem : ∀ f : PyFields, sanitizeFields (sanitizeFields f) = sanitizeFields f
  | .nil => rfl
  | .cons k v rest => by
      simp only [sanitizeFields]
      rw [sanitize_input_idem v, sanitizeFields_idem rest]

theorem sanitizeItems_idem : ∀ l : PyItems, sanitizeItems (sanitizeItems l) = sanitizeItems l
  | .nil => rfl
  | .cons v rest => by
      simp only [sanitizeItems]
      rw [sanitize_input_idem v, sanitizeItems_idem rest]

end

/-- Membership in a trimmed character list implies membership in the
original list. -/
theorem mem_of_mem_trimChars {c : Char} {l : List Char} (h : c ∈ trimChars l) : c ∈ l := by
  unfold trimChars at h
  rw [List.mem_reverse] at h
  have h2 : c ∈ (l.dropWhile Char.isWhitespace).reverse :=
    List.Sublist.subset (List.dropWhile_sublist _) h
  rw [List.mem_reverse] at h2
  exact List.Sublist.subset (List.dropWhile_sublist _) h2

/-- sanitize_form_data acts on each top-level entry by sanitizeFormValue. -/
theorem sanitize_form_data_get : ∀ (f : PyFields) (k : String) (v : PyValue),
    f.get? k = some v → (sanitize_form_data f).get? k = some (sanitizeFormValue k v)
  | .nil, _, _, h => by cases h
  | .cons k0 v0 rest, k, v, h => by
      by_cases heq : k0 = k
      · subst heq
        have h0 : v0 = v := by simpa [PyFields.get?] using h
        subst h0
        simp [sanitize_form_data, PyFields.get?]
      · simp only [PyFields.get?, if_neg heq] at h
        simp only [sanitize_form_data, PyFields.get?, if_neg heq]
        exact sanitize_form_data_get rest k v h

/-- The per-field sanitized string is clean and within the per-field
limit. -/
theorem sanitizeFormValue_string_spec (k : String) (s : String) :
    ∃ t : String, sanitizeFormValue k (.vStr s) = .vStr t ∧
      t.data.all (fun c => !dangerousChar c) = true ∧ t.length ≤ fieldLimit k := by
  refine ⟨_, rfl, ?_, ?_⟩
  · rw [List.all_eq_true]
    intro c hc
    have hc2 : c ∈ (pyStrip (stripDangerous s)).data.take (fieldLimit k) := hc
    have h1 : c ∈ trimChars (stripDangerous s).data := List.mem_of_mem_take hc2
    have h2 : c ∈ (s.data.filter fun c => !dangerousChar c) := mem_of_mem_trimChars h1
    exact (List.mem_filter.mp h2).2
  · show ((pyStrip (stripDangerous s)).data.take (fieldLimit k)).length ≤ fieldLimit k
    rw [List.length_take]
    exact min_le_left _ _

/-- sanitizeFormValue leaves every non-string value unchanged. -/
theorem sanitizeFormValue_non_string (k : String) (v : PyValue)
    (h : ∀ s, v ≠ .vStr s) : sanitizeFormValue k v = v := by
  cases v with
  | vStr s => exact absurd rfl (h s)
  | vNum q => rfl
  | vBool b => rfl
  | vNull => rfl
  | vDict f => rfl
  | vList l => rfl

/-- Counterexample to claim C5 as stated: no single sanitizer function
both applies the tighter per-field limits and reaches nested string
leaves.  sanitize_input leaves a 60-character first_name at 60 characters,
above the claimed 50-character limit for that field, and
sanitize_form_data passes a nested dict through unchanged, so a dangerous
angle bracket survives in its string leaf. -/
theorem C5_counterexample :
    (sanitize_input (.vDict (.cons "first_name" (.vStr ⟨List.replicate 60 'a'⟩) .nil)) =
      .vDict (.cons "first_name" (.vStr ⟨List.replicate 60 'a'⟩) .nil)) ∧
    (String.mk (List.replicate 60 'a')).length = 60 ∧
    (sanitize_form_data (.cons "payload" (.vDict (.cons "note" (.vStr "<a>") .nil)) .nil) =
      .cons "payload" (.vDict (.cons "note" (.vStr "<a>") .nil)) .nil) ∧
    "<a>".data.any dangerousChar = true :=
  ⟨rfl, by decide, rfl, by decide⟩

/-- Claim C5 (amended): security.sanitize_input recursively strips the
dangerous characters from every string leaf and truncates each to 1000
characters, preserves the shape of the structure, passes non-string
scalars through unchanged and always terminates; the tighter per-field
limits (first_name/last_name 50, email 255, company/website 200,
phone 20, default 500) together with whitespace trimming are applied by
validation.sanitize_form_data, and only to top-level string values, every
non-string value, including a nested container, passing through
unchanged. -/
theorem C5_sanitizers_spec :
    (∀ v : PyValue, sameShape v (sanitize_input v) = true ∧
      cleanValue (sanitize_input v) = true) ∧
    (∀ (f : PyFields) (k : String) (v : PyValue), f.get? k = some v →
      (sanitize_form_data f).get? k = some (sanitizeFormValue k v)) ∧
    (∀ k s, ∃ t : String, sanitizeFormValue k (.vStr s) = .vStr t ∧
      t.data.all (fun c => !dangerousChar c) = true ∧ t.length ≤ fieldLimit k) ∧
    (∀ k v, (∀ s, v ≠ .vStr s) → sanitizeFormValue k v = v) ∧
    (fieldLimit "first_name" = 50 ∧ fieldLimit "last_name" = 50 ∧
      fieldLimit "email" = 255 ∧ fieldLimit "company" = 200 ∧
      fieldLimit "website" = 200 ∧ fieldLimit "phone" = 20 ∧
      fieldLimit "conversion_rate" = 500) :=
  ⟨fun v => ⟨sanitize_input_shape v, sanitize_input_clean v⟩,
   sanitize_form_data_get,
   sanitizeFormValue_string_spec,
   sanitizeFormValue_non_string,
   by decide⟩

/-- Witness for C5 on a concrete top-level email entry. -/
theorem C5_witness :
    (sanitize_form_data (.cons "email" (.vStr " a<b> ") .nil)).get? "email" =
      some (sanitizeFormValue "email" (.vStr " a<b> ")) :=
  (C5_sanitizers_spec).2.1 (.cons "email" (.vStr " a<b> ") .nil) "email" (.vStr " a<b> ") rfl

/-- Claim C6: sanitization is idempotent with respect to scoring: on a
dict, sanitize_input acts by sanitizeFields, a second sanitization pass
changes nothing, so the lead score after two passes equals the lead score
after one. -/
theorem C6_sanitize_idempotent_scoring (data : PyFields)
    (hparse : numericFieldsParse data = true) :
    sanitize_input (.vDict data) = .vDict (sanitizeFields data) ∧
    calculate_lead_score (sanitizeFields (sanitizeFields data)) =
      calculate_lead_score (sanitizeFields data) :=
  ⟨rfl, by rw [sanitizeFields_idem]⟩

/-- Witness for C6 at the minimal scenario input. -/
theorem C6_witness :
    sanitize_input (.vDict scenarioMinimal) = .vDict (sanitizeFields scenarioMinimal) ∧
    calculate_lead_score (sanitizeFields (sanitizeFields scenarioMinimal)) =
      calculate_lead_score (sanitizeFields scenarioMinimal) :=
  C6_sanitize_idempotent_scoring scenarioMinimal (by decide)

/-! ## Lookup tracking through the submission validator -/

/-- Looking up the inserted key finds the inserted message. -/
theorem lookupErr_dictInsert_self : ∀ (es : Errors) (k v : String),
    lookupErr (dictInsert es k v) k = some v
  | [], k, v => by simp [dictInsert, lookupErr]
  | (k0, v0) :: rest, k, v => by
      by_cases h : k0 = k
      · subst h; simp [dictInsert, lookupErr]
      · simp [dictInsert, lookupErr, h, lookupErr_dictInsert_self rest k v]

/-- Inserting under a different key leaves a lookup unchanged. -/
theorem lookupErr_dictInsert_ne : ∀ (es : Errors) (f k v : String), f ≠ k →
    lookupErr (dictInsert es f v) k = lookupErr es k
  | [], f, k, v, h => by simp [dictInsert, lookupErr, h]
  | (k0, v0) :: rest, f, k, v, h => by
      by_cases h0 : k0 = f
      · subst h0; simp [dictInsert, lookupErr, h]
      · simp only [dictInsert, if_neg h0]
        by_cases hk : k0 = k
        · subst hk; simp [lookupErr]
        · simp [lookupErr, hk, lookupErr_dictInsert_ne rest f k v h]

/-- Insertion only reads the target key, so lookups factor through it. -/
theorem lookupErr_dictInsert_congr (es es2 : Errors) (f m k : String)
    (h : lookupErr es k = lookupErr es2 k) :
    lookupErr (dictInsert es f m) k = lookupErr (dictInsert es2 f m) k := by
  by_cases hf : f = k
  · subst hf; rw [lookupErr_dictInsert_self, lookupErr_dictInsert_self]
  · rw [lookupErr_dictInsert_ne es f k m hf, lookupErr_dictInsert_ne es2 f k m hf, h]

/-- requiredCheck only writes under its own field. -/
theorem requiredCheck_lookup_ne (data : PyFields) (field k : String) (es : Errors)
    (h : field ≠ k) :
    lookupErr (requiredCheck data field es) k = lookupErr es k := by
  unfold requiredCheck
  repeat' split
  all_goals first | rfl | exact lookupErr_dictInsert_ne es field k _ h

/-- financialCheck only writes under its own field. -/
theorem financialCheck_lookup_ne (data : PyFields) (field k : String) (mn mx : Nat)
    (es : Errors) (h : field ≠ k) :
    lookupErr (financialCheck data field mn mx es) k = lookupErr es k := by
  unfold financialCheck
  repeat' split
  all_goals first | rfl | exact lookupErr_dictInsert_ne es field k _ h

/-- enumCheck only writes under its own field. -/
theorem enumCheck_lookup_ne (data : PyFields) (field k : String) (vs : List String)
    (msg : String) (es : Errors) (h : field ≠ k) :
    lookupErr (enumCheck data field vs msg es) k = lookupErr es k := by
  unfold enumCheck
  repeat' split
  all_goals first | rfl | exact lookupErr_dictInsert_ne es field k _ h

/-- percentageCheck only writes under its own field. -/
theorem percentageCheck_lookup_ne (data : PyFields) (field k : String) (es : Errors)
    (h : field ≠ k) :
    lookupErr (percentageCheck data field es) k = lookupErr es k := by
  unfold percentageCheck
  repeat' split
  all_goals first | rfl | exact lookupErr_dictInsert_ne es field k _ h

/-- emailCheck only writes under the email key. -/
theorem emailCheck_lookup_ne {data : PyFields} {es es2 : Errors} {k : String}
    (hr : emailCheck data es = some es2) (h : ¬("email" = k)) :
    lookupErr es2 k = lookupErr es k := by
  unfold emailCheck at hr
  repeat' split at hr
  all_goals first
    | (injection hr with h2; subst h2;
        first
          | rfl
          | exact lookupErr_dictInsert_ne es "email" k _ h
          | (split <;> first
              | rfl
              | exact lookupErr_dictInsert_ne es "email" k _ h))
    | cases hr

/-- nameCheck only writes under its own field. -/
theorem nameCheck_lookup_ne {data : PyFields} {field : String} {es es2 : Errors} {k : String}
    (hr : nameCheck data field es = some es2) (h : ¬(field = k)) :
    lookupErr es2 k = lookupErr es k := by
  unfold nameCheck at hr
  repeat' split at hr
  all_goals first
    | (injection hr with h2; subst h2;
        first
          | rfl
          | exact lookupErr_dictInsert_ne es field k _ h
          | (split <;> first
              | rfl
              | exact lookupErr_dictInsert_ne es field k _ h))
    | cases hr

/-- phoneCheck only writes under the phone key. -/
theorem phoneCheck_lookup_ne {data : PyFields} {es es2 : Errors} {k : String}
    (hr : phoneCheck data es = some es2) (h : ¬("phone" = k)) :
    lookupErr es2 k = lookupErr es k := by
  unfold phoneCheck at hr
  repeat' split at hr
  all_goals first
    | (injection hr with h2; subst h2;
        first
          | rfl
          | exact lookupErr_dictInsert_ne es "phone" k _ h
          | (split <;> first
              | rfl
              | exact lookupErr_dictInsert_ne es "phone" k _ h))
    | cases hr

/-- websiteCheck only writes under the website key. -/
theorem websiteCheck_lookup_ne {data : PyFields} {es es2 : Errors} {k : String}
    (hr : websiteCheck data es = some es2) (h : ¬("website" = k)) :
    lookupErr es2 k = lookupErr es k := by
  unfold websiteCheck at hr
  repeat' split at hr
  all_goals first
    | (injection hr with h2; subst h2;
        first
          | rfl
          | exact lookupErr_dictInsert_ne es "website" k _ h
          | (split <;> first
              | rfl
              | exact lookupErr_dictInsert_ne es "website" k _ h))
    | cases hr

/-- companyCheck only writes under the company key. -/
theorem companyCheck_lookup_ne {data : PyFields} {es es2 : Errors} {k : String}
    (hr : companyCheck data es = some es2) (h : ¬("company" = k)) :
    lookupErr es2 k = lookupErr es k := by
  unfold companyCheck at hr
  repeat' split at hr
  all_goals first
    | (injection hr with h2; subst h2;
        first
          | rfl
          | exact lookupErr_dictInsert_ne es "company" k _ h
          | (split <;> first
              | rfl
              | exact lookupErr_dictInsert_ne es "company" k _ h))
    | cases hr

/-- The lookup after requiredCheck depends on the incoming errors only
through the lookup of the same key. -/
theorem requiredCheck_lookup_congr (data : PyFields) (field : String) (es es2 : Errors)
    (k : String) (h : lookupErr es k = lookupErr es2 k) :
    lookupErr (requiredCheck data field es) k = lookupErr (requiredCheck data field es2) k := by
  unfold requiredCheck
  repeat' split
  all_goals first | exact h | exact lookupErr_dictInsert_congr es es2 field _ k h

/-- The lookup after financialCheck depends on the incoming errors only
through the lookup of the same key. -/
theorem financialCheck_lookup_congr (data : PyFields) (field : String) (mn mx : Nat)
    (es es2 : Errors) (k : String) (h : lookupErr es k = lookupErr es2 k) :
    lookupErr (financialCheck data field mn mx es) k =
      lookupErr (financialCheck data field mn mx es2) k := by
  unfold financialCheck
  repeat' split
  all_goals first | exact h | exact lookupErr_dictInsert_congr es es2 field _ k h

/-- A string that is all whitespace does not parse as a Python float. -/
theorem pyStrToFloat?_of_trim_nil {s : String} (h : trimChars s.data = []) :
    pyStrToFloat? s = none := by
  unfold pyStrToFloat?
  rw [h]
  rfl

/-- A string value that parses as a Python float does not strip to the
empty string. -/
theorem strip_nonempty_of_parses {s : String} {x : Rat} (h : pyStrToFloat? s = some x) :
    ¬(pyStrip s = "") := by
  intro he
  have hl : trimChars s.data = ([] : List Char) := congrArg String.data he
  rw [pyStrToFloat?_of_trim_nil hl] at h
  cases h

/-- The required check leaves the errors unchanged on a truthy value that
parses as a float: such a string cannot strip to empty. -/
theorem requiredCheck_skip_of_float (data : PyFields) (field : String) {v : PyValue} {x : Rat}
    (hget : data.get? field = some v) (ht : v.truthy = true) (hx : pyFloat v = some x)
    (es : Errors) : requiredCheck data field es = es := by
  simp only [requiredCheck, hget, ht]
  cases v with
  | vStr s => simp [strip_nonempty_of_parses hx]
  | vNum q => rfl
  | vBool b => rfl
  | vNull => rfl
  | vDict f => rfl
  | vList l => rfl

/-- The required check records the is-required error on a falsy value. -/
theorem requiredCheck_insert_of_falsy (data : PyFields) (field : String) {v : PyValue}
    (hget : data.get? field = some v) (ht : v.truthy = false) (es : Errors) :
    requiredCheck data field es =
      dictInsert es field (fieldTitle field ++ " is required") := by
  simp [requiredCheck, hget, ht]

/-- The financial check reduces to the range test on a truthy value that
parses as a float. -/
theorem financialCheck_eq_of_float (data : PyFields) (field : String) {v : PyValue} {x : Rat}
    (hget : data.get? field = some v) (ht : v.truthy = true) (hx : pyFloat v = some x)
    (mn mx : Nat) (es : Errors) :
    financialCheck data field mn mx es =
      if x < (mn : Rat) then
        dictInsert es field (fieldTitle field ++ " must be at least $" ++ commaFormat mn)
      else if x > (mx : Rat) then
        dictInsert es field (fieldTitle field ++ " cannot exceed $" ++ commaFormat mx)
      else es := by
  simp [financialCheck, hget, ht, hx]

/-- The financial check records the valid-number error on a truthy value
whose float conversion fails. -/
theorem financialCheck_eq_of_nofloat (data : PyFields) (field : String) {v : PyValue}
    (hget : data.get? field = some v) (ht : v.truthy = true) (hx : pyFloat v = none)
    (mn mx : Nat) (es : Errors) :
    financialCheck data field mn mx es =
      dictInsert es field (fieldTitle field ++ " must be a valid number") := by
  simp [financialCheck, hget, ht, hx]

/-- The financial check is skipped on a falsy value. -/
theorem financialCheck_skip_of_falsy (data : PyFields) (field : String) {v : PyValue}
    (hget : data.get? field = some v) (ht : v.truthy = false) (mn mx : Nat) (es : Errors) :
    financialCheck data field mn mx es = es := by
  simp [financialCheck, hget, ht]

/-- The percentage check is skipped on a falsy value. -/
theorem percentageCheck_skip_of_falsy (data : PyFields) (field : String) {v : PyValue}
    (hget : data.get? field = some v) (ht : v.truthy = false) (es : Errors) :
    percentageCheck data field es = es := by
  simp [percentageCheck, hget, ht]

/-- The name check is skipped on a falsy value. -/
theorem nameCheck_skip_of_falsy (data : PyFields) (field : String) {v : PyValue}
    (hget : data.get? field = some v) (ht : v.truthy = false) (es : Errors) :
    nameCheck data field es = some es := by
  simp [nameCheck, hget, ht]

/-- The monthly_revenue error of a produced validation result is decided
by the required check and the financial check for that field alone. -/
theorem validate_lookup_mr_chain (data : PyFields) (r : ValidationResult)
    (h : validate_roi_submission data = some r) :
    lookupErr r.errors "monthly_revenue" =
      lookupErr (financialCheck data "monthly_revenue" 1000 10000000
        (requiredCheck data "monthly_revenue" [])) "monthly_revenue" := by
  unfold validate_roi_submission at h
  simp only [bind, Option.bind_eq_some, Option.pure_def, Option.some.injEq] at h
  obtain ⟨e1, h1, e2, h2, e3, h3, e4, h4, e5, h5, e6, h6, hr⟩ := h
  subst hr
  dsimp only
  rw [percentageCheck_lookup_ne data "cart_abandonment_rate" "monthly_revenue" _ (by decide)]
  rw [percentageCheck_lookup_ne data "conversion_rate" "monthly_revenue" _ (by decide)]
  rw [enumCheck_lookup_ne data "company_size" "monthly_revenue" _ _ _ (by decide)]
  rw [enumCheck_lookup_ne data "business_stage" "monthly_revenue" _ _ _ (by decide)]
  rw [enumCheck_lookup_ne data "industry" "monthly_revenue" _ _ _ (by decide)]
  rw [companyCheck_lookup_ne h6 (by decide)]
  rw [websiteCheck_lookup_ne h5 (by decide)]
  rw [phoneCheck_lookup_ne h4 (by decide)]
  rw [financialCheck_lookup_ne data "monthly_orders" "monthly_revenue" 1 1000000 _ (by decide)]
  rw [financialCheck_lookup_ne data "average_order_value" "monthly_revenue" 1 100000 _
    (by decide)]
  apply financialCheck_lookup_congr
  rw [nameCheck_lookup_ne h3 (by decide), nameCheck_lookup_ne h2 (by decide),
    emailCheck_lookup_ne h1 (by decide)]
  rw [requiredCheck_lookup_ne data "monthly_orders" "monthly_revenue" _ (by decide)]
  rw [requiredCheck_lookup_ne data "average_order_value" "monthly_revenue" _ (by decide)]
  apply requiredCheck_lookup_congr
  rw [requiredCheck_lookup_ne data "email" "monthly_revenue" _ (by decide)]
  rw [requiredCheck_lookup_ne data "last_name" "monthly_revenue" _ (by decide)]
  rw [requiredCheck_lookup_ne data "first_name" "monthly_revenue" _ (by decide)]

/-- The monthly_revenue error when the field value is truthy and parses:
present exactly outside the accepted range. -/
theorem validate_lookup_mr_parsed (data : PyFields) (r : ValidationResult)
    {v : PyValue} {x : Rat} (h : validate_roi_submission data = some r)
    (hget : data.get? "monthly_revenue" = some v) (ht : v.truthy = true)
    (hx : pyFloat v = some x) :
    lookupErr r.errors "monthly_revenue" =
      (if x < (1000 : Rat) then
        some (fieldTitle "monthly_revenue" ++ " must be at least $" ++ commaFormat 1000)
      else if x > (10000000 : Rat) then
        some (fieldTitle "monthly_revenue" ++ " cannot exceed $" ++ commaFormat 10000000)
      else none) := by
  rw [validate_lookup_mr_chain data r h]
  rw [requiredCheck_skip_of_float data "monthly_revenue" hget ht hx]
  rw [financialCheck_eq_of_float data "monthly_revenue" hget ht hx 1000 10000000]
  simp only [Nat.cast_ofNat]
  split_ifs <;> first | exact lookupErr_dictInsert_self _ _ _ | rfl

/-- The monthly_revenue error when the field value is truthy but does not
parse as a float: the valid-number message. -/
theorem validate_lookup_mr_nofloat (data : PyFields) (r : ValidationResult)
    {v : PyValue} (h : validate_roi_submission data = some r)
    (hget : data.get? "monthly_revenue" = some v) (ht : v.truthy = true)
    (hx : pyFloat v = none) :
    lookupErr r.errors "monthly_revenue" =
      some (fieldTitle "monthly_revenue" ++ " must be a valid number") := by
  rw [validate_lookup_mr_chain data r h]
  rw [financialCheck_eq_of_nofloat data "monthly_revenue" hget ht hx 1000 10000000]
  exact lookupErr_dictInsert_self _ _ _

/-- The monthly_revenue error when the field value is falsy: the
is-required message. -/
theorem validate_lookup_mr_falsy (data : PyFields) (r : ValidationResult)
    {v : PyValue} (h : validate_roi_submission data = some r)
    (hget : data.get? "monthly_revenue" = some v) (ht : v.truthy = false) :
    lookupErr r.errors "monthly_revenue" =
      some (fieldTitle "monthly_revenue" ++ " is required") := by
  rw [validate_lookup_mr_chain data r h]
  rw [financialCheck_skip_of_falsy data "monthly_revenue" hget ht 1000 10000000]
  rw [requiredCheck_insert_of_falsy data "monthly_revenue" hget ht]
  exact lookupErr_dictInsert_self _ _ _

/-- No conversion_rate error is recorded when the field value is falsy. -/
theorem validate_lookup_cr_falsy (data : PyFields) (r : ValidationResult)
    {v : PyValue} (h : validate_roi_submission data = some r)
    (hget : data.get? "conversion_rate" = some v) (ht : v.truthy = false) :
    lookupErr r.errors "conversion_rate" = none := by
  unfold validate_roi_submission at h
  simp only [bind, Option.bind_eq_some, Option.pure_def, Option.some.injEq] at h
  obtain ⟨e1, h1, e2, h2, e3, h3, e4, h4, e5, h5, e6, h6, hr⟩ := h
  subst hr
  dsimp only
  rw [percentageCheck_lookup_ne data "cart_abandonment_rate" "conversion_rate" _ (by decide)]
  rw [percentageCheck_skip_of_falsy data "conversion_rate" hget ht]
  rw [enumCheck_lookup_ne data "company_size" "conversion_rate" _ _ _ (by decide)]
  rw [enumCheck_lookup_ne data "business_stage" "conversion_rate" _ _ _ (by decide)]
  rw [enumCheck_lookup_ne data "industry" "conversion_rate" _ _ _ (by decide)]
  rw [companyCheck_lookup_ne h6 (by decide)]
  rw [websiteCheck_lookup_ne h5 (by decide)]
  rw [phoneCheck_lookup_ne h4 (by decide)]
  rw [financialCheck_lookup_ne data "monthly_orders" "conversion_rate" 1 1000000 _ (by decide)]
  rw [financialCheck_lookup_ne data "average_order_value" "conversion_rate" 1 100000 _
    (by decide)]
  rw [financialCheck_lookup_ne data "monthly_revenue" "conversion_rate" 1000 10000000 _
    (by decide)]
  rw [nameCheck_lookup_ne h3 (by decide), nameCheck_lookup_ne h2 (by decide),
    emailCheck_lookup_ne h1 (by decide)]
  rw [requiredCheck_lookup_ne data "monthly_orders" "conversion_rate" _ (by decide)]
  rw [requiredCheck_lookup_ne data "average_order_value" "conversion_rate" _ (by decide)]
  rw [requiredCheck_lookup_ne data "monthly_revenue" "conversion_rate" _ (by decide)]
  rw [requiredCheck_lookup_ne data "email" "conversion_rate" _ (by decide)]
  rw [requiredCheck_lookup_ne data "last_name" "conversion_rate" _ (by decide)]
  rw [requiredCheck_lookup_ne data "first_name" "conversion_rate" _ (by decide)]
  rfl

/-- The first_name error on a falsy first_name value is the is-required
message: the name-format check is skipped. -/
theorem validate_lookup_fn_falsy (data : PyFields) (r : ValidationResult)
    {v : PyValue} (h : validate_roi_submission data = some r)
    (hget : data.get? "first_name" = some v) (ht : v.truthy = false) :
    lookupErr r.errors "first_name" =
      some (fieldTitle "first_name" ++ " is required") := by
  unfold validate_roi_submission at h
  simp only [bind, Option.bind_eq_some, Option.pure_def, Option.some.injEq] at h
  obtain ⟨e1, h1, e2, h2, e3, h3, e4, h4, e5, h5, e6, h6, hr⟩ := h
  subst hr
  dsimp only
  rw [nameCheck_skip_of_falsy data "first_name" hget ht] at h2
  injection h2 with h2e
  subst h2e
  rw [percentageCheck_lookup_ne data "cart_abandonment_rate" "first_name" _ (by decide)]
  rw [percentageCheck_lookup_ne data "conversion_rate" "first_name" _ (by decide)]
  rw [enumCheck_lookup_ne data "company_size" "first_name" _ _ _ (by decide)]
  rw [enumCheck_lookup_ne data "business_stage" "first_name" _ _ _ (by decide)]
  rw [enumCheck_lookup_ne data "industry" "first_name" _ _ _ (by decide)]
  rw [companyCheck_lookup_ne h6 (by decide)]
  rw [websiteCheck_lookup_ne h5 (by decide)]
  rw [phoneCheck_lookup_ne h4 (by decide)]
  rw [financialCheck_lookup_ne data "monthly_orders" "first_name" 1 1000000 _ (by decide)]
  rw [financialCheck_lookup_ne data "average_order_value" "first_name" 1 100000 _ (by decide)]
  rw [financialCheck_lookup_ne data "monthly_revenue" "first_name" 1000 10000000 _ (by decide)]
  rw [nameCheck_lookup_ne h3 (by decide)]
  rw [emailCheck_lookup_ne h1 (by decide)]
  rw [requiredCheck_lookup_ne data "monthly_orders" "first_name" _ (by decide)]
  rw [requiredCheck_lookup_ne data "average_order_value" "first_name" _ (by decide)]
  rw [requiredCheck_lookup_ne data "monthly_revenue" "first_name" _ (by decide)]
  rw [requiredCheck_lookup_ne data "email" "first_name" _ (by decide)]
  rw [requiredCheck_lookup_ne data "last_name" "first_name" _ (by decide)]
  rw [requiredCheck_insert_of_falsy data "first_name" hget ht]
  exact lookupErr_dictInsert_self _ _ _

/-- Claim C7: at the monthly_revenue boundary, 999 records an error under
the monthly_revenue key while the identical submission with 1000 records
none; in general, for a truthy value that parses as a number, an error is
recorded under monthly_revenue exactly when the value is below 1000 or
above 10000000, so the accepted range is inclusive at both ends; a truthy
value that fails to parse records the valid-number error under the same
key. -/
theorem C7_monthly_revenue_boundary :
    ((validate_roi_submission (submissionWithRevenue (.vNum 999))).map
      (fun r => (lookupErr r.errors "monthly_revenue").isSome) = some true) ∧
    ((validate_roi_submission (submissionWithRevenue (.vNum 1000))).map
      (fun r => (lookupErr r.errors "monthly_revenue").isSome) = some false) ∧
    (∀ data r v x, validate_roi_submission data = some r →
      data.get? "monthly_revenue" = some v → v.truthy = true → pyFloat v = some x →
      ((lookupErr r.errors "monthly_revenue").isSome = true ↔
        (x < 1000 ∨ 10000000 < x))) ∧
    (∀ data r v, validate_roi_submission data = some r →
      data.get? "monthly_revenue" = some v → v.truthy = true → pyFloat v = none →
      lookupErr r.errors "monthly_revenue" =
        some "Monthly Revenue must be a valid number") := by
  refine ⟨by decide, by decide, ?_, ?_⟩
  · intro data r v x hval hget ht hx
    rw [validate_lookup_mr_parsed data r hval hget ht hx]
    split_ifs with h1 h2
    · simp [h1]
    · simp [h2]
    · simp [h1, h2]
  · intro data r v hval hget ht hx
    rw [validate_lookup_mr_nofloat data r hval hget ht hx]
    decide

/-- Witness for C7 at the rejected boundary value 999. -/
theorem C7_witness :
    (lookupErr (ValidationResult.mk false
      [("monthly_revenue", "Monthly Revenue must be at least $1,000")]).errors
        "monthly_revenue").isSome = true ↔ ((999 : Rat) < 1000 ∨ 10000000 < (999 : Rat)) :=
  (C7_monthly_revenue_boundary).2.2.1 (submissionWithRevenue (.vNum 999))
    ⟨false, [("monthly_revenue", "Monthly Revenue must be at least $1,000")]⟩
    (.vNum 999) 999 (by decide) rfl rfl rfl

/-- Claim C10: validate_roi_submission treats falsy field values as
absent: a required field holding the number 0 or the empty string is
reported with the is-required error, not a range error, and the numeric
range checks are skipped on falsy values, so conversion_rate 0 records no
error at all. -/
theorem C10_falsy_fields_skip_checks (data : PyFields) (r : ValidationResult)
    (h : validate_roi_submission data = some r) :
    (data.get? "monthly_revenue" = some (.vNum 0) →
      lookupErr r.errors "monthly_revenue" = some "Monthly Revenue is required") ∧
    (data.get? "first_name" = some (.vStr "") →
      lookupErr r.errors "first_name" = some "First Name is required") ∧
    (data.get? "conversion_rate" = some (.vNum 0) →
      lookupErr r.errors "conversion_rate" = none) := by
  refine ⟨fun hget => ?_, fun hget => ?_, fun hget => ?_⟩
  · rw [validate_lookup_mr_falsy data r h hget (by decide)]
    decide
  · rw [validate_lookup_fn_falsy data r h hget (by decide)]
    decide
  · exact validate_lookup_cr_falsy data r h hget (by decide)

/-- Witness for C10 at a concrete all-falsy submission. -/
theorem C10_witness :
    lookupErr (ValidationResult.mk false
      [("first_name", "First Name is required"), ("last_name", "Last Name is required"),
       ("email", "Email is required"), ("monthly_revenue", "Monthly Revenue is required"),
       ("average_order_value", "Average Order Value is required"),
       ("monthly_orders", "Monthly Orders is required")]).errors "monthly_revenue" =
      some "Monthly Revenue is required" :=
  (C10_falsy_fields_skip_checks falsySubmission
    ⟨false, [("first_name", "First Name is required"), ("last_name", "Last Name is required"),
      ("email", "Email is required"), ("monthly_revenue", "Monthly Revenue is required"),
      ("average_order_value", "Average Order Value is required"),
      ("monthly_orders", "Monthly Orders is required")]⟩ (by decide)).1 rfl

end ROICalc
